import Mathlib

/-!
Verification development for the Grout geospatial backend.

It embeds, as executable Lean definitions:
  * the shapefile import helpers of `app/api/imports/shapefile.py`
    (`extract_zip_to_temp_dir`, `get_shapefiles_in_dir`, `get_union`,
    `make_multipolygon`);
  * the database schema of the `Boundary` model as created by the
    migration `ashlar/migrations/0004_boundary.py`;
  * the record date-range filter backend (`DateRangeFilterBackend`),
    whose implementation file is not among the provided sources and is
    therefore modelled from the specification and the behaviour pinned
    down by `tests/test_date_filter.py`.
-/

namespace Grout

/-! ### GEOS geometries

The import helpers only dispatch on the geometry type (Polygon,
MultiPolygon, anything else) and rebuild MultiPolygons from Polygons, so
a geometry is embedded as a tagged value: a Polygon carries an abstract
payload `p : α` (its rings), a MultiPolygon carries the list of payloads
of its member polygons, and every other GEOS type is collapsed into
`other` with its type name. -/

/-- A GEOS geometry as dispatched on by `make_multipolygon`: the payload
type `α` abstracts the coordinate data of a single polygon. -/
inductive GEOSGeom (α : Type) where
  | polygon (p : α)
  | multiPolygon (ps : List α)
  | other (typeName : String)
deriving Repr, DecidableEq

/-- Whether a geometry is a MultiPolygon (the `isinstance(_, MultiPolygon)`
test of the source). -/
def GEOSGeom.isMultiPolygon {α : Type} : GEOSGeom α → Bool
  | GEOSGeom.multiPolygon _ => true
  | _ => false

/-- A feature read from a shapefile layer; `geos` is the GEOS
representation of its geometry (`geom.geos` in the source). -/
structure Feature (α : Type) where
  geos : GEOSGeom α
deriving Repr, DecidableEq

/-! ### `extract_zip_to_temp_dir`

A zip archive is embedded as the list of its member names
(`unzipper.namelist()`), and the filesystem effect of
`tempfile.mkdtemp()` is embedded as a function from the set of already
existing directory names to a new name: `mkdtemp` models its guarantee
that the created directory is fresh by returning a name strictly longer
than every existing one. -/

/-- Model of `tempfile.mkdtemp()`: returns a directory name not in
`existing` (one character longer than the longest existing name). -/
def mkdtemp (existing : List String) : String :=
  String.mk (List.replicate ((existing.map String.length).foldr Nat.max 0 + 1) 'x')

/-- The member-selection of `extract_zip_to_temp_dir`:
`[f for f in unzipper.namelist() if '__MACOSX' not in f]`. -/
def files_to_extract (names : List String) : List String :=
  names.filter (fun f => !(decide (List.IsInfix "__MACOSX".toList f.toList)))

/-- Function `extract_zip_to_temp_dir` from `app/api/imports/shapefile.py`:
creates a fresh temporary directory and extracts into it exactly the
members without `__MACOSX` in their name.  The archive is given by its
member name list, the filesystem by the list of existing directory
names; the result is the new directory paired with the extracted
members. -/
def extract_zip_to_temp_dir (existing : List String) (names : List String) :
    String × List String :=
  let temp_dir := mkdtemp existing
  (temp_dir, files_to_extract names)

/-! ### `get_shapefiles_in_dir`

A directory tree is embedded as a nested inductive; `os.walk` full paths
are produced by joining with `/` (`os.path.join(dirpath, name)`). -/

/-- A filesystem entry: a plain file or a directory with children. -/
inductive Entry where
  | file (name : String)
  | dir (name : String) (children : List Entry)
deriving Repr

mutual

/-- Full paths of the files reachable from a single entry placed in
directory `base` (the `os.walk` traversal restricted to one entry). -/
def entryFiles (base : String) : Entry → List String
  | Entry.file n => [base ++ "/" ++ n]
  | Entry.dir n cs => entriesFiles (base ++ "/" ++ n) cs

/-- Full paths of all files reachable from a list of entries in
directory `base`: the `all_files` list built by the `os.walk` loop of
`get_shapefiles_in_dir`. -/
def entriesFiles (base : String) : List Entry → List String
  | [] => []
  | e :: es => entryFiles base e ++ entriesFiles base es

end

/-- Function `get_shapefiles_in_dir` from `app/api/imports/shapefile.py`: walks
the directory `path` (whose contents are `es`) collecting all file
paths, then keeps those ending in `.shp`
(`filter(lambda f: f.endswith('.shp'), all_files)`).  `endswith` is the
suffix test on the character sequence. -/
def get_shapefiles_in_dir (path : String) (es : List Entry) : List String :=
  (entriesFiles path es).filter (fun f => decide (List.IsSuffix ".shp".toList f.toList))

/-- The file `p` is reachable from entry `e` sitting in directory
`base` by recursively walking directories. -/
inductive EntryFile : String → Entry → String → Prop where
  | file {base : String} {n : String} :
      EntryFile base (Entry.file n) (base ++ "/" ++ n)
  | dir {base : String} {n : String} {cs : List Entry} {e : Entry} {p : String} :
      e ∈ cs → EntryFile (base ++ "/" ++ n) e p →
      EntryFile base (Entry.dir n cs) p

/-! ### `get_union` and `make_multipolygon` -/

/-- The accumulation loop of `get_union`:
`for geom in geoms[1:]: combined = combined.union(geom)`.  The geometric
`union` operation is a parameter, since the source applies it
generically to whatever geometry objects the layer yields. -/
def unionLoop {α : Type} (union : α → α → α) (combined : α) : List α → α
  | [] => combined
  | g :: gs => unionLoop union (union combined g) gs

/-- Function `get_union` from `app/api/imports/shapefile.py`: raises `ValueError`
on an empty list (`len(geoms) <= 0`), otherwise starts from `geoms[0]`
and unions in the remaining geometries left to right. -/
def get_union {α : Type} (union : α → α → α) : List α → Except String α
  | [] => Except.error "Cannot union empty feature list."
  | g :: gs => Except.ok (unionLoop union g gs)

/-- Function `make_multipolygon` from `app/api/imports/shapefile.py`: wraps a
Polygon in a one-member MultiPolygon (`MultiPolygon(geom.geos)`),
returns a MultiPolygon unchanged, and raises `ValueError` on any other
geometry type. -/
def make_multipolygon {α : Type} (geom : Feature α) : Except String (GEOSGeom α) :=
  match geom.geos with
  | GEOSGeom.polygon p => Except.ok (GEOSGeom.multiPolygon [p])
  | GEOSGeom.multiPolygon ps => Except.ok (GEOSGeom.multiPolygon ps)
  | GEOSGeom.other _ => Except.error "Feature is not a MultiPolygon or Polygon"

/-! ### The `Boundary` table of migration `0004_boundary.py`

The migration creates the table with, among others,
`label = CharField(max_length=64)`,
`status = CharField(default='pen', max_length=10, choices=...)` and
`geom = MultiPolygonField(srid=3857, null=True, blank=True)`.
`boundaryRowValid` states what the created database schema enforces on a
stored row: the length limits of the char columns, and that `geom` is
either NULL (the column is declared `null=True`) or a MultiPolygon (the
column type).  `choices` and `blank` are application-level validation,
not database constraints, and the uuid/timestamp/errors/source_file
columns carry no constraint relevant here. -/

/-- A stored row of the `Boundary` table (the constrained columns). -/
structure BoundaryRow (α : Type) where
  label : String
  status : String
  source_file : String
  geom : Option (GEOSGeom α)
deriving Repr, DecidableEq

/-- The constraints the migration's schema puts on a stored row. -/
def boundaryRowValid {α : Type} (r : BoundaryRow α) : Bool :=
  decide (r.label.length ≤ 64) &&
  decide (r.status.length ≤ 10) &&
  (match r.geom with
   | Option.none => true
   | some g => g.isMultiPolygon)

/-! ### The record date-range filter backend

`grout/filters.py` (class `DateRangeFilterBackend`) is not among the
provided sources; only its tests are.  The definitions below are
therefore modelled from the specification — the filter backend
translates `occurred_min`/`occurred_max` query parameters, with a
literal `"none"` sentinel selecting non-temporal records, into filter
expressions bounding a Record's temporal range — together with the
request/response behaviour pinned down by `tests/test_date_filter.py`.
Datetime parsing is abstracted into a parameter
`parse : String → Option Int`: `parse s = some t` means `s` is a valid
timezone-aware ISO 8601 datetime denoting the instant `t`, and
`parse s = none` that `s` is not (a malformed or timezone-naive string
does not parse). -/

/-- Modelled from the spec: the temporal part of a Record
("optionally time-ranged").  `occurred = some (f, t)` is a temporal
record with `occurred_from = f` and `occurred_to = t`; `occurred = none`
is a non-temporal record (both columns NULL).  The geometry, schema and
data columns play no part in date filtering and are omitted. -/
structure Record where
  occurred : Option (Int × Int)
deriving Repr, DecidableEq

/-- Whether a record is non-temporal (no `occurred_from`/`occurred_to`
temporal data). -/
def isNontemporal (r : Record) : Bool := r.occurred.isNone

/-- An error response of the filter backend: HTTP status and the
`detail` message. -/
structure FilterError where
  status : Nat
  detail : String
deriving Repr, DecidableEq

/-- Modelled from the spec: `DateRangeFilterBackend.ERR_MSG`, the
description of an acceptable datetime value appended to parse-error
details.  The tests reference it only symbolically, so its exact text
is immaterial here. -/
def ERR_MSG : String :=
  "an ISO 8601 formatted datetime string with timezone information"

/-- The 400 response for a `"none"` sentinel combined with a valid
datetime in the other parameter, with the exact detail text asserted by
`test_invalid_min_max_filter`. -/
def noneParamError (param : String) : FilterError :=
  ⟨400, "Invalid value for parameter " ++ param ++
        ": value cannot be \"none\" while another param is a valid datetime."⟩

/-- The 400 response for a parameter that is not a valid datetime, with
the detail text asserted by `test_range_parse_errors`. -/
def badDatetimeError (param : String) : FilterError :=
  ⟨400, "Invalid value for parameter " ++ param ++ ", value must be " ++ ERR_MSG⟩

/-- Whether an optional query parameter holds a valid datetime (the
`"none"` sentinel is not a datetime). -/
def isValidDatetime (parse : String → Option Int) : Option String → Bool
  | some s => decide (s ≠ "none") && (parse s).isSome
  | Option.none => false

/-- Modelled from the spec: the filter expression produced for parsed
bounds, keeping the temporal records whose position lies within them —
`occurred_from` at or after `occurred_min` and at or before
`occurred_max`, each bound only when given.  Non-temporal records never
match a date range.  (The tests only exercise records with
`occurred_from = occurred_to`, which cannot distinguish which of the two
columns each bound compares against; the spec's "bounding a Record's
temporal range" is modelled as bounding `occurred_from`.) -/
def inDateRange (omin omax : Option Int) (r : Record) : Bool :=
  match r.occurred with
  | Option.none => false
  | some (f, _t) =>
    (match omin with | some m => decide (m ≤ f) | Option.none => true) &&
    (match omax with | some m => decide (f ≤ m) | Option.none => true)

/-- Modelled from the spec: `DateRangeFilterBackend.filter_queryset`.
Reads the optional `occurred_min`/`occurred_max` query parameters.  If
either is the literal `"none"`, the user asks for non-temporal records:
this is rejected with a 400 when the other parameter is a valid
datetime (`test_invalid_min_max_filter`), and otherwise returns exactly
the non-temporal records (`test_min_max_is_none`).  Otherwise each
given parameter must parse as a timezone-aware datetime — a parse
failure yields a 400 (`test_range_parse_errors`) — and the queryset is
filtered to the records within the parsed bounds
(`test_valid_datefilter`); with neither parameter given the queryset is
returned unfiltered (`test_missing_min_max`). -/
def filter_queryset (parse : String → Option Int)
    (occurred_min occurred_max : Option String) (records : List Record) :
    Except FilterError (List Record) :=
  if occurred_min = some "none" ∨ occurred_max = some "none" then
    if occurred_min = some "none" ∧ isValidDatetime parse occurred_max = true then
      Except.error (noneParamError "occurred_min")
    else if occurred_max = some "none" ∧ isValidDatetime parse occurred_min = true then
      Except.error (noneParamError "occurred_max")
    else
      Except.ok (records.filter isNontemporal)
  else
    match occurred_min, occurred_max with
    | Option.none, Option.none => Except.ok records
    | some smin, Option.none =>
      match parse smin with
      | some tmin => Except.ok (records.filter (inDateRange (some tmin) Option.none))
      | Option.none => Except.error (badDatetimeError "occurred_min")
    | Option.none, some smax =>
      match parse smax with
      | some tmax => Except.ok (records.filter (inDateRange Option.none (some tmax)))
      | Option.none => Except.error (badDatetimeError "occurred_max")
    | some smin, some smax =>
      match parse smin, parse smax with
      | some tmin, some tmax =>
        Except.ok (records.filter (inDateRange (some tmin) (some tmax)))
      | Option.none, _ => Except.error (badDatetimeError "occurred_min")
      | some _, Option.none => Except.error (badDatetimeError "occurred_max")

/-! ## Theorems -/

/-- The union loop is a left fold over the tail. -/
theorem unionLoop_eq_foldl {α : Type} (union : α → α → α) (acc : α) (gs : List α) :
    unionLoop union acc gs = List.foldl union acc gs := by
  induction gs generalizing acc with
  | nil => rfl
  | cons g gs ih => simp [unionLoop, List.foldl, ih]

/-- C4: for every non-empty list of geometries, `get_union` returns the
left fold of pairwise union starting from the first element; in
particular it returns a sole geometry unchanged. -/
theorem get_union_foldl {α : Type} (union : α → α → α) (g0 : α) (gs : List α) :
    get_union union (g0 :: gs) = Except.ok (List.foldl union g0 gs) ∧
    get_union union [g0] = Except.ok g0 := by
  constructor
  · simp [get_union, unionLoop_eq_foldl]
  · rfl

/-- C7: `get_union` fails with `ValueError('Cannot union empty feature
list.')` exactly on the empty list, and never raises this error on a
non-empty list. -/
theorem get_union_empty_error {α : Type} (union : α → α → α) (l : List α) :
    get_union union l = Except.error "Cannot union empty feature list." ↔ l = [] := by
  cases l with
  | nil => simp [get_union]
  | cons g gs => simp [get_union]

/-- C3: `make_multipolygon` wraps a Polygon in a new MultiPolygon,
returns a MultiPolygon input unchanged, raises `ValueError` on any other
geometry type, and never succeeds with a non-MultiPolygon result. -/
theorem make_multipolygon_spec {α : Type} (geom : Feature α) :
    (∀ p, geom.geos = GEOSGeom.polygon p →
       make_multipolygon geom = Except.ok (GEOSGeom.multiPolygon [p])) ∧
    (∀ ps, geom.geos = GEOSGeom.multiPolygon ps →
       make_multipolygon geom = Except.ok geom.geos) ∧
    (∀ s, geom.geos = GEOSGeom.other s →
       make_multipolygon geom = Except.error "Feature is not a MultiPolygon or Polygon") ∧
    (∀ g, make_multipolygon geom = Except.ok g → g.isMultiPolygon = true) := by
  obtain ⟨g⟩ := geom
  refine ⟨?_, ?_, ?_, ?_⟩
  · intro p hp
    cases hp
    rfl
  · intro ps hp
    cases hp
    rfl
  · intro s hp
    cases hp
    rfl
  · intro g2 hg
    cases g with
    | polygon p => cases hg; rfl
    | multiPolygon ps => cases hg; rfl
    | other s => cases hg

/-- Witness for C3 at concrete geometries. -/
theorem make_multipolygon_spec_witness :
    make_multipolygon (Feature.mk (GEOSGeom.polygon 5) : Feature Nat) =
      Except.ok (GEOSGeom.multiPolygon [5]) ∧
    make_multipolygon (Feature.mk (GEOSGeom.multiPolygon [1, 2]) : Feature Nat) =
      Except.ok (GEOSGeom.multiPolygon [1, 2]) ∧
    make_multipolygon (Feature.mk (GEOSGeom.other "Point") : Feature Nat) =
      Except.error "Feature is not a MultiPolygon or Polygon" :=
  ⟨(make_multipolygon_spec (Feature.mk (GEOSGeom.polygon 5))).1 5 rfl,
   (make_multipolygon_spec (Feature.mk (GEOSGeom.multiPolygon [1, 2]))).2.1 [1, 2] rfl,
   (make_multipolygon_spec (Feature.mk (GEOSGeom.other "Point"))).2.2.1 "Point" rfl⟩

/-- C5 counterexample: the migration declares `geom` with `null=True`,
so a Boundary row whose `geom` column is NULL satisfies every constraint
of the schema — the geom column does not always hold a non-null
MultiPolygon. -/
theorem boundary_geom_nullable_counterexample :
    boundaryRowValid
      (BoundaryRow.mk "district" "pen" "boundaries/2015/06/01/districts.zip"
        Option.none : BoundaryRow Nat) = true ∧
    (BoundaryRow.mk "district" "pen" "boundaries/2015/06/01/districts.zip"
        Option.none : BoundaryRow Nat).geom = Option.none := by
  constructor
  · decide
  · rfl

/-- C5 (amended): every Boundary row admitted by the migration's schema
has a `geom` column that is either NULL or a MultiPolygon; it never
holds a non-null value of another geometry type. -/
theorem boundary_geom_null_or_multipolygon {α : Type} (r : BoundaryRow α)
    (h : boundaryRowValid r = true) :
    r.geom = Option.none ∨ ∃ ps, r.geom = some (GEOSGeom.multiPolygon ps) := by
  obtain ⟨lab, st, sf, geom⟩ := r
  cases geom with
  | none => exact Or.inl rfl
  | some g =>
    cases g with
    | polygon p => simp [boundaryRowValid, GEOSGeom.isMultiPolygon] at h
    | multiPolygon ps => exact Or.inr ⟨ps, rfl⟩
    | other s => simp [boundaryRowValid, GEOSGeom.isMultiPolygon] at h

/-- Witness for the amended C5 at a concrete valid row. -/
theorem boundary_geom_null_or_multipolygon_witness :
    (BoundaryRow.mk "district" "com" "d.zip"
        (some (GEOSGeom.multiPolygon [0, 1])) : BoundaryRow Nat).geom = Option.none ∨
    ∃ ps, (BoundaryRow.mk "district" "com" "d.zip"
        (some (GEOSGeom.multiPolygon [0, 1])) : BoundaryRow Nat).geom =
      some (GEOSGeom.multiPolygon ps) :=
  boundary_geom_null_or_multipolygon
    (BoundaryRow.mk "district" "com" "d.zip" (some (GEOSGeom.multiPolygon [0, 1])))
    (by decide)

/-- Every member of a Nat list is at most the `foldr max 0` of the
list. -/
theorem le_foldr_max_of_mem {l : List Nat} {n : Nat} (h : n ∈ l) :
    n ≤ l.foldr Nat.max 0 := by
  induction l with
  | nil => cases h
  | cons m l ih =>
    rcases List.mem_cons.mp h with rfl | h2
    · exact Nat.le_max_left _ _
    · exact Nat.le_trans (ih h2) (Nat.le_max_right _ _)

/-- The model `mkdtemp` returns a directory name that does not already exist. -/
theorem mkdtemp_not_mem (existing : List String) : mkdtemp existing ∉ existing := by
  intro hmem
  have hle : (mkdtemp existing).length ≤ (existing.map String.length).foldr Nat.max 0 :=
    le_foldr_max_of_mem (List.mem_map_of_mem String.length hmem)
  have hlen : (mkdtemp existing).length =
      (existing.map String.length).foldr Nat.max 0 + 1 := by
    simp [mkdtemp]
  omega

/-- C9: `extract_zip_to_temp_dir` extracts, into a freshly created
temporary directory, exactly the archive members whose names do not
contain the substring `__MACOSX`. -/
theorem extract_zip_spec (existing names : List String) :
    (extract_zip_to_temp_dir existing names).1 ∉ existing ∧
    ∀ f, f ∈ (extract_zip_to_temp_dir existing names).2 ↔
      (f ∈ names ∧ ¬ List.IsInfix "__MACOSX".toList f.toList) := by
  constructor
  · exact mkdtemp_not_mem existing
  · intro f
    simp [extract_zip_to_temp_dir, files_to_extract, List.mem_filter]

mutual

/-- The walk of a single entry produces exactly the reachable file
paths. -/
theorem mem_entryFiles (base : String) (e : Entry) (p : String) :
    p ∈ entryFiles base e ↔ EntryFile base e p := by
  cases e with
  | file n =>
    constructor
    · intro hp
      simp only [entryFiles, List.mem_singleton] at hp
      subst hp
      exact EntryFile.file
    · intro hp
      cases hp
      simp [entryFiles]
  | dir n cs =>
    rw [show entryFiles base (Entry.dir n cs) = entriesFiles (base ++ "/" ++ n) cs from rfl]
    rw [mem_entriesFiles (base ++ "/" ++ n) cs p]
    constructor
    · rintro ⟨e1, he1, hf⟩
      exact EntryFile.dir he1 hf
    · intro hp
      cases hp with
      | dir he1 hf => exact ⟨_, he1, hf⟩

/-- The walk of an entry list produces exactly the file paths reachable
from one of its entries. -/
theorem mem_entriesFiles (base : String) (es : List Entry) (p : String) :
    p ∈ entriesFiles base es ↔ ∃ e ∈ es, EntryFile base e p := by
  cases es with
  | nil => simp [entriesFiles]
  | cons e es =>
    rw [show entriesFiles base (e :: es) = entryFiles base e ++ entriesFiles base es from rfl]
    rw [List.mem_append, mem_entryFiles base e p, mem_entriesFiles base es p]
    constructor
    · rintro (hp | ⟨e1, he1, hf⟩)
      · exact ⟨e, List.mem_cons_self e es, hp⟩
      · exact ⟨e1, List.mem_cons_of_mem e he1, hf⟩
    · rintro ⟨e1, he1, hf⟩
      rcases List.mem_cons.mp he1 with rfl | he2
      · exact Or.inl hf
      · exact Or.inr ⟨e1, he2, hf⟩

end

/-- C6: `get_shapefiles_in_dir` returns exactly the files reachable by
recursively walking the directory whose full path ends in `.shp`. -/
theorem get_shapefiles_spec (path : String) (es : List Entry) (f : String) :
    f ∈ get_shapefiles_in_dir path es ↔
      ((∃ e ∈ es, EntryFile path e f) ∧ List.IsSuffix ".shp".toList f.toList) := by
  rw [get_shapefiles_in_dir, List.mem_filter, mem_entriesFiles]
  simp

/-- Range check with both bounds, characterized. -/
theorem inDateRange_both (tmin tmax : Int) (r : Record) :
    inDateRange (some tmin) (some tmax) r = true ↔
      ∃ f t, r.occurred = some (f, t) ∧ tmin ≤ f ∧ f ≤ tmax := by
  obtain ⟨_ | ⟨f, t⟩⟩ := r <;> simp [inDateRange]

/-- Range check with only a lower bound, characterized. -/
theorem inDateRange_min (tmin : Int) (r : Record) :
    inDateRange (some tmin) Option.none r = true ↔
      ∃ f t, r.occurred = some (f, t) ∧ tmin ≤ f := by
  obtain ⟨_ | ⟨f, t⟩⟩ := r <;> simp [inDateRange]

/-- Range check with only an upper bound, characterized. -/
theorem inDateRange_max (tmax : Int) (r : Record) :
    inDateRange Option.none (some tmax) r = true ↔
      ∃ f t, r.occurred = some (f, t) ∧ f ≤ tmax := by
  obtain ⟨_ | ⟨f, t⟩⟩ := r <;> simp [inDateRange]

/-- A record matching a date range is temporal. -/
theorem inDateRange_temporal (omin omax : Option Int) (r : Record)
    (h : inDateRange omin omax r = true) : isNontemporal r = false := by
  obtain ⟨_ | ⟨f, t⟩⟩ := r
  · simp [inDateRange] at h
  · rfl

/-- C1: whenever `occurred_min` or `occurred_max` is the literal string
`"none"` and the filter returns a record list, that list holds exactly
the non-temporal records of the queryset, and no temporal record. -/
theorem date_filter_none_sentinel (parse : String → Option Int)
    (omin omax : Option String) (records l : List Record)
    (hnone : omin = some "none" ∨ omax = some "none")
    (hok : filter_queryset parse omin omax records = Except.ok l) (r : Record) :
    r ∈ l ↔ (r ∈ records ∧ isNontemporal r = true) := by
  unfold filter_queryset at hok
  rw [if_pos hnone] at hok
  by_cases h1 : omin = some "none" ∧ isValidDatetime parse omax = true
  · rw [if_pos h1] at hok
    cases hok
  · rw [if_neg h1] at hok
    by_cases h2 : omax = some "none" ∧ isValidDatetime parse omin = true
    · rw [if_pos h2] at hok
      cases hok
    · rw [if_neg h2] at hok
      cases hok
      exact List.mem_filter

/-- Witness for C1: a queryset of one temporal and one non-temporal
record filtered with `occurred_min=none`. -/
theorem date_filter_none_sentinel_witness :
    Record.mk Option.none ∈ [Record.mk Option.none] ↔
      (Record.mk Option.none ∈ [Record.mk (some (3, 4)), Record.mk Option.none] ∧
       isNontemporal (Record.mk Option.none) = true) :=
  date_filter_none_sentinel (fun _ => Option.none) (some "none") Option.none
    [Record.mk (some (3, 4)), Record.mk Option.none] [Record.mk Option.none]
    (Or.inl rfl) rfl (Record.mk Option.none)

/-- C2: with valid timezone-aware datetimes for `occurred_min` and/or
`occurred_max`, the filter succeeds and returns exactly the temporal
records lying within the queried bounds — with only `occurred_max`
given, exactly those with `occurred_from` at or before it — and every
returned record is temporal (non-temporal records are excluded). -/
theorem date_filter_valid_range (parse : String → Option Int) (records : List Record)
    (smin smax : String) (tmin tmax : Int)
    (hmin : parse smin = some tmin) (hmax : parse smax = some tmax)
    (hminne : smin ≠ "none") (hmaxne : smax ≠ "none") :
    (∃ l, filter_queryset parse (some smin) (some smax) records = Except.ok l ∧
       ∀ r, r ∈ l ↔ (r ∈ records ∧
         ∃ f t, r.occurred = some (f, t) ∧ tmin ≤ f ∧ f ≤ tmax)) ∧
    (∃ l, filter_queryset parse Option.none (some smax) records = Except.ok l ∧
       ∀ r, r ∈ l ↔ (r ∈ records ∧ ∃ f t, r.occurred = some (f, t) ∧ f ≤ tmax)) ∧
    (∃ l, filter_queryset parse (some smin) Option.none records = Except.ok l ∧
       ∀ r, r ∈ l ↔ (r ∈ records ∧ ∃ f t, r.occurred = some (f, t) ∧ tmin ≤ f)) ∧
    (∀ l, filter_queryset parse (some smin) (some smax) records = Except.ok l →
       ∀ r, r ∈ l → isNontemporal r = false) := by
  have hc1 : ¬(some smin = some "none" ∨ some smax = some "none") := by
    rintro (h | h)
    · exact hminne (Option.some.inj h)
    · exact hmaxne (Option.some.inj h)
  have hc2 : ¬((Option.none : Option String) = some "none" ∨ some smax = some "none") := by
    rintro (h | h)
    · exact Option.noConfusion h
    · exact hmaxne (Option.some.inj h)
  have hc3 : ¬(some smin = some "none" ∨ (Option.none : Option String) = some "none") := by
    rintro (h | h)
    · exact hminne (Option.some.inj h)
    · exact Option.noConfusion h
  have e1 : filter_queryset parse (some smin) (some smax) records =
      Except.ok (records.filter (inDateRange (some tmin) (some tmax))) := by
    unfold filter_queryset
    rw [if_neg hc1]
    simp [hmin, hmax]
  have e2 : filter_queryset parse Option.none (some smax) records =
      Except.ok (records.filter (inDateRange Option.none (some tmax))) := by
    unfold filter_queryset
    rw [if_neg hc2]
    simp [hmax]
  have e3 : filter_queryset parse (some smin) Option.none records =
      Except.ok (records.filter (inDateRange (some tmin) Option.none)) := by
    unfold filter_queryset
    rw [if_neg hc3]
    simp [hmin]
  refine ⟨⟨_, e1, ?_⟩, ⟨_, e2, ?_⟩, ⟨_, e3, ?_⟩, ?_⟩
  · intro r
    rw [List.mem_filter, inDateRange_both]
  · intro r
    rw [List.mem_filter, inDateRange_max]
  · intro r
    rw [List.mem_filter, inDateRange_min]
  · intro l hl r hr
    rw [e1] at hl
    cases hl
    exact inDateRange_temporal _ _ r (List.mem_filter.mp hr).2

/-- Witness for C2: the two test datetimes as bounds over a queryset of
an early, a later, and a non-temporal record. -/
theorem date_filter_valid_range_witness :
    ∃ l, filter_queryset
        (fun s => if s = "2015-01-01T00:00:00+00:00" then some 0
                  else if s = "2015-02-22T00:00:00+00:00" then some 52 else Option.none)
        Option.none (some "2015-02-22T00:00:00+00:00")
        [Record.mk (some (0, 0)), Record.mk (some (52, 52)), Record.mk Option.none] =
      Except.ok l ∧
    ∀ r, r ∈ l ↔
      (r ∈ [Record.mk (some (0, 0)), Record.mk (some (52, 52)), Record.mk Option.none] ∧
       ∃ f t, r.occurred = some (f, t) ∧ f ≤ (52 : Int)) :=
  (date_filter_valid_range
    (fun s => if s = "2015-01-01T00:00:00+00:00" then some 0
              else if s = "2015-02-22T00:00:00+00:00" then some 52 else Option.none)
    [Record.mk (some (0, 0)), Record.mk (some (52, 52)), Record.mk Option.none]
    "2015-01-01T00:00:00+00:00" "2015-02-22T00:00:00+00:00" 0 52
    rfl rfl (by decide) (by decide)).2.1

/-- C8: a `"none"` sentinel in one of `occurred_min`/`occurred_max`
while the other parameter is a valid datetime is rejected with HTTP 400
and the exact detail message naming the offending parameter. -/
theorem date_filter_none_conflict (parse : String → Option Int)
    (records : List Record) (s : String) (t : Int)
    (hs : parse s = some t) (hne : s ≠ "none") :
    filter_queryset parse (some "none") (some s) records =
      Except.error (FilterError.mk 400
        "Invalid value for parameter occurred_min: value cannot be \"none\" while another param is a valid datetime.") ∧
    filter_queryset parse (some s) (some "none") records =
      Except.error (FilterError.mk 400
        "Invalid value for parameter occurred_max: value cannot be \"none\" while another param is a valid datetime.") := by
  have hvalid : isValidDatetime parse (some s) = true := by
    simp [isValidDatetime, hne, hs]
  constructor
  · unfold filter_queryset
    rw [if_pos (Or.inl rfl), if_pos ⟨rfl, hvalid⟩]
    rfl
  · unfold filter_queryset
    rw [if_pos (Or.inr rfl)]
    rw [if_neg (fun h => hne (Option.some.inj h.1))]
    rw [if_pos ⟨rfl, hvalid⟩]
    rfl

/-- Witness for C8 at a concrete datetime parameter. -/
theorem date_filter_none_conflict_witness :
    filter_queryset
        (fun s => if s = "2015-01-01T00:00:00+00:00" then some 0 else Option.none)
        (some "none") (some "2015-01-01T00:00:00+00:00") [] =
      Except.error (FilterError.mk 400
        "Invalid value for parameter occurred_min: value cannot be \"none\" while another param is a valid datetime.") ∧
    filter_queryset
        (fun s => if s = "2015-01-01T00:00:00+00:00" then some 0 else Option.none)
        (some "2015-01-01T00:00:00+00:00") (some "none") [] =
      Except.error (FilterError.mk 400
        "Invalid value for parameter occurred_max: value cannot be \"none\" while another param is a valid datetime.") :=
  date_filter_none_conflict
    (fun s => if s = "2015-01-01T00:00:00+00:00" then some 0 else Option.none)
    [] "2015-01-01T00:00:00+00:00" 0 (by decide) (by decide)

end Grout
